import Mathlib

/-!
Verification of the page-rendering and overlay-alignment subsystem of the
tracing viewer application (src/app/app.py).

The Python source is embedded shallowly: pure functions of the source become
Lean functions; the external libraries the source calls (PyMuPDF alias fitz,
PIL, the st.cache_data memoization of the UI framework) are modelled from the
specification, each such definition carrying a doc comment that starts with
"Modelled from the spec:". Python floats are modelled by the rationals, and
the Python builtin int conversion, which truncates toward zero, by py_int.
-/

/-- An RGB pixel, three channel values. -/
abbrev Color := Nat × Nat × Nat

/-- A raster image: mode string, pixel dimensions, and the pixel grid
(height rows of width pixels). Mirrors the PIL Image values the source
creates, which are always RGB. -/
structure Image where
  mode : String
  width : Nat
  height : Nat
  data : List (List Color)
deriving DecidableEq

/-- Modelled from the spec: PIL Image.new for mode RGB - a width by height
buffer filled with a single color. -/
def Image.new (width height : Nat) (color : Color) : Image :=
  { mode := "RGB", width := width, height := height,
    data := List.replicate height (List.replicate width color) }

/-- Modelled from the spec: PIL ImageDraw rectangle with an outline color and a
stroke width - draws an unfilled rectangle outline onto the pixel buffer. The
library is external to the repository; per the spec it tolerates degenerate
(zero- or negative-area) rectangles, changes pixel contents only, and never
alters the image dimensions or mode. -/
def Image.draw_rectangle (img : Image) (x0 y0 x1 y1 : Int) (outline : Color)
    (w : Nat) : Image :=
  { img with data := img.data.mapIdx (fun y row => row.mapIdx (fun x c =>
      if x0 ≤ (x : Int) ∧ (x : Int) ≤ x1 ∧ y0 ≤ (y : Int) ∧ (y : Int) ≤ y1 ∧
          ((x : Int) < x0 + w ∨ x1 - w < (x : Int) ∨
           (y : Int) < y0 + w ∨ y1 - w < (y : Int))
      then outline else c)) }

/-- Modelled from the spec: PIL ImageDraw text - external font rasterization of
a label at an anchor position. The glyph pixels are abstracted to a mark of the
fill color at the anchor pixel; dimensions and mode are never altered. -/
def Image.draw_text (img : Image) (x y : Int) (label : String) (fill : Color) :
    Image :=
  let _ := label
  { img with data := img.data.mapIdx (fun yi row => row.mapIdx (fun xi c =>
      if (xi : Int) = x ∧ (yi : Int) = y then fill else c)) }

/-- A font handle, as produced by PIL ImageFont: either a truetype font of a
given name and size, or the bundled default font. -/
inductive Font where
  | truetype (name : String) (size : Nat)
  | defaultFont
deriving DecidableEq

/-- A page of a paginated document: its native point dimensions and an abstract
of its drawn content (the ink color the rasterization produces). -/
structure Page where
  width : Nat
  height : Nat
  ink : Color
deriving DecidableEq

/-- A paginated document as the fitz decoder exposes it: its list of pages. -/
structure Doc where
  pages : List Page
deriving DecidableEq

/-- fitz Document.page_count: the number of pages. -/
def Doc.page_count (d : Doc) : Int := d.pages.length

/-- Modelled from the spec: fitz Document.load_page - returns the page at a
zero-based index when the index is valid. -/
def Doc.load_page (d : Doc) (i : Int) : Option Page :=
  if 0 ≤ i then d.pages[i.toNat]? else none

/-- Python float arithmetic is modelled over the rationals; the Python builtin
int conversion truncates toward zero. -/
def py_int (q : ℚ) : Int := if q < 0 then -⌊-q⌋ else ⌊q⌋

/-- Modelled from the spec: page.get_pixmap with matrix fitz.Matrix(zoom, zoom)
and alpha False, followed by Image.frombytes - rasterizes the page with an
anisotropy-free scale of (zoom, zoom) and no alpha channel, yielding an RGB
buffer of the scaled pixel dimensions filled with the page content. -/
def Page.get_pixmap (p : Page) (zoom : ℚ) : Image :=
  Image.new (⌊(p.width : ℚ) * zoom⌋).toNat (⌊(p.height : ℚ) * zoom⌋).toNat p.ink

/-- The external-backend environment of one run. The fields model, from the
spec, the behavior of libraries outside the repository: whether importing
PyMuPDF succeeded (fitz is not None), how fitz.open decodes a filesystem path or
an in-memory byte buffer into a document (none on failure, the
DocumentOpenError case), whether the bundled PDF path exists, whether the
DejaVuSans truetype font loads, and the text bounding box that
ImageDraw.textbbox reports for a label in a font. -/
structure Env where
  fitzAvailable : Bool
  openPath : String → Option Doc
  openBytes : List Nat → Option Doc
  pdfPathExists : Bool
  dejavuAvailable : Bool
  textbb : Font → Int × Int × Int × Int

/-- The errors a render call can surface. backendUnavailable embeds the
RuntimeError raised when fitz is None; documentOpenError the fitz.open failure
on an invalid source; pageLoadError the backend failure loading a page from an
empty document. invalidZoom appears in the error taxonomy of the spec and is
kept so that claims about it can be stated; the source never produces it. -/
inductive RenderError where
  | backendUnavailable
  | documentOpenError
  | pageLoadError
  | invalidZoom
deriving DecidableEq

/-- Lines 28-33 of src/app/app.py: ensure_index_bounds. -/
def ensure_index_bounds (index : Int) (max_index : Int) : Int :=
  if index < 0 then 0
  else if index > max_index then max_index
  else index

/-- The label drawn on the placeholder image (line 43). -/
def placeholder_label : String := "Image Placeholder"

/-- The truetype font name the placeholder tries to load (line 45). -/
def dejavu_name : String := "DejaVuSans.ttf"

/-- Lines 40-54 of src/app/app.py: build_placeholder_image. The try/except
around the truetype load is modelled by the dejavuAvailable flag; the floor
division of Python is Int.fdiv. -/
def build_placeholder_image (env : Env) (width : Nat := 900)
    (height : Nat := 600) : Image :=
  let img := Image.new width height (245, 245, 245)
  let font := if env.dejavuAvailable then Font.truetype dejavu_name 36
              else Font.defaultFont
  let bb := env.textbb font
  let text_width := bb.2.2.1 - bb.1
  let text_height := bb.2.2.2 - bb.2.1
  let x := Int.fdiv ((width : Int) - text_width) 2
  let y := Int.fdiv ((height : Int) - text_height) 2
  img.draw_text x y placeholder_label (80, 80, 80)

/-- Lines 57-68 of src/app/app.py: render_pdf_page_from_path. The document
handle is scoped by the with block; the page index is clamped by
max(0, min(page_index, doc.page_count - 1)) before the page load. -/
def render_pdf_page_from_path (env : Env) (path : String) (page_index : Int)
    (zoom : ℚ := 2) : Except RenderError Image :=
  if env.fitzAvailable = false then .error .backendUnavailable
  else
    match env.openPath path with
    | none => .error .documentOpenError
    | some doc =>
      let page_index := max 0 (min page_index (doc.page_count - 1))
      match doc.load_page page_index with
      | none => .error .pageLoadError
      | some page => .ok (page.get_pixmap zoom)

/-- Lines 71-82 of src/app/app.py: render_pdf_page_from_bytes. Identical to the
path variant except the source is an in-memory byte buffer. -/
def render_pdf_page_from_bytes (env : Env) (raw : List Nat) (page_index : Int)
    (zoom : ℚ := 2) : Except RenderError Image :=
  if env.fitzAvailable = false then .error .backendUnavailable
  else
    match env.openBytes raw with
    | none => .error .documentOpenError
    | some doc =>
      let page_index := max 0 (min page_index (doc.page_count - 1))
      match doc.load_page page_index with
      | none => .error .pageLoadError
      | some page => .ok (page.get_pixmap zoom)

/-- A document source: a filesystem path or an in-memory byte buffer. The
identity component of a cache key. -/
inductive Src where
  | path (p : String)
  | bytes (raw : List Nat)
deriving DecidableEq

/-- The cache key of the render memoization: source identity, page index as
requested, and zoom. -/
abbrev CacheKey := Src × Int × ℚ

/-- Dispatches a source to the render function the source calls for it. -/
def renderSrc (env : Env) (src : Src) (page_index : Int) (zoom : ℚ) :
    Except RenderError Image :=
  match src with
  | .path p => render_pdf_page_from_path env p page_index zoom
  | .bytes raw => render_pdf_page_from_bytes env raw page_index zoom

/-- Lookup of a key in the memoization store. -/
def cacheLookup (key : CacheKey) : List (CacheKey × Image) → Option Image
  | [] => none
  | (k, img) :: rest => if k = key then some img else cacheLookup key rest

instance : DecidableEq (Except RenderError Image) := fun
  | .ok a, .ok b =>
    if h : a = b then .isTrue (by rw [h]) else .isFalse (by simp [h])
  | .ok _, .error _ => .isFalse (by simp)
  | .error _, .ok _ => .isFalse (by simp)
  | .error a, .error b =>
    if h : a = b then .isTrue (by rw [h]) else .isFalse (by simp [h])

/-- The outcome of one call through the Render Cache: the returned result, the
store afterwards, and whether the underlying rasterizer was invoked. -/
structure CacheResult where
  result : Except RenderError Image
  cache : List (CacheKey × Image)
  invoked : Bool
deriving DecidableEq

/-- Modelled from the spec: the st.cache_data memoization wrapping the two
render functions (lines 57 and 71) - the Render Cache. Keyed by the call
arguments. On a hit the stored image is returned without invoking the
rasterizer; on a miss the rasterizer runs and a successful result is stored
under the key; a failure propagates to the caller and nothing is stored. -/
def getOrRender (env : Env) (cache : List (CacheKey × Image)) (src : Src)
    (page_index : Int) (zoom : ℚ) : CacheResult :=
  match cacheLookup (src, page_index, zoom) cache with
  | some img => ⟨.ok img, cache, false⟩
  | none =>
    match renderSrc env src page_index zoom with
    | .ok img => ⟨.ok img, ((src, page_index, zoom), img) :: cache, true⟩
    | .error e => ⟨.error e, cache, true⟩

/-- The value of the bbox field of a record: a list of numbers (a JSON array)
or some other JSON value that is not a list or tuple. -/
inductive BboxField where
  | list (xs : List ℚ)
  | scalar
deriving DecidableEq

/-- A dictionary record of the collection; each field is absent or present
(a field present with a JSON null reads back as absent through dict.get). -/
structure RecordFields where
  text : Option String := none
  page_no : Option Int := none
  page : Option Int := none
  bbox : Option BboxField := none
deriving DecidableEq

/-- An item of the loaded collection: a dictionary record or any other JSON
value, displayed through str. -/
inductive Item where
  | dict (r : RecordFields)
  | other (s : String)
deriving DecidableEq

/-- Lines 149-155 of src/app/app.py: the markdown text of the current item -
the text field with an empty-string default for a dictionary, str of the item
otherwise. -/
def markdown_text : Item → String
  | .dict r => match r.text with
    | some t => t
    | none => ""
  | .other s => s

/-- Lines 157-163 of src/app/app.py: the page number resolved for the current
item - page_no when present, else page when present, else 0. -/
def resolve_page_no : Item → Int
  | .dict r =>
    match r.page_no with
    | some n => n
    | none =>
      match r.page with
      | some n => n
      | none => 0
  | .other _s => 0

/-- The outline color of the overlay rectangle (line 188). -/
def crimson : Color := (220, 20, 60)

/-- Lines 181-186 of src/app/app.py: the pixel rectangle of a normalized box
on an image of the given pixel dimensions, by the Python int conversion of
each product. -/
def map_bbox (width height : Nat) (x0 y0 x1 y1 : ℚ) : Int × Int × Int × Int :=
  (py_int (x0 * width), py_int (y0 * height),
   py_int (x1 * width), py_int (y1 * height))

/-- Lines 178-188 of src/app/app.py: the overlay step - when the item is a
dictionary whose bbox is present and is a list or tuple of exactly 4 elements,
draw the mapped rectangle with a crimson outline of stroke width 4; otherwise
the image is left unchanged. -/
def apply_overlay (item : Item) (img : Image) : Image :=
  match item with
  | .other _s => img
  | .dict r =>
    match r.bbox with
    | none => img
    | some .scalar => img
    | some (.list [x0, y0, x1, y1]) =>
      let rect := map_bbox img.width img.height x0 y0 x1 y1
      img.draw_rectangle rect.1 rect.2.1 rect.2.2.1 rect.2.2.2 crimson 4
    | some (.list _xs) => img

/-- The path of the bundled PDF (line 14), relative to the repository. -/
def pdf_path : String :=
  "documents/tracing_positional_bias_in_finance_decision_making.pdf"

/-- Lines 157-192 of src/app/app.py: the image the right column displays. When
fitz is unavailable the placeholder is shown; otherwise the page resolved for
the item is rendered from the uploaded bytes when present, else from the
bundled path when it exists (placeholder when it does not), the overlay step is
applied, and any raised render failure is caught and replaced by the
placeholder. -/
def right_col_image (env : Env) (pdf_upload : Option (List Nat)) (item : Item) :
    Image :=
  let page_no := resolve_page_no item
  if env.fitzAvailable = false then
    build_placeholder_image env
  else
    match pdf_upload with
    | some raw =>
      match render_pdf_page_from_bytes env raw page_no with
      | .ok img => apply_overlay item img
      | .error _e => build_placeholder_image env
    | none =>
      if env.pdfPathExists = false then build_placeholder_image env
      else
        match render_pdf_page_from_path env pdf_path page_no with
        | .ok img => apply_overlay item img
        | .error _e => build_placeholder_image env

/-- The Overlay Mapper pixel rectangle as the specification words it: the
round of each product. Stated from the spec text for comparison with map_bbox,
the mapping the source performs. -/
def map_bbox_spec (width height : Nat) (x0 y0 x1 y1 : ℚ) :
    Int × Int × Int × Int :=
  (round (x0 * width), round (y0 * height),
   round (x1 * width), round (y1 * height))

/-! Concrete fixtures used by the witness theorems. -/

/-- A small concrete page. -/
def page_w : Page := ⟨3, 2, (9, 9, 9)⟩

/-- A one-page concrete document. -/
def doc_w : Doc := ⟨[page_w]⟩

/-- A ten-page concrete document. -/
def doc10 : Doc := ⟨List.replicate 10 page_w⟩

/-- A concrete environment: fitz available, the byte buffer [37] decodes to the
one-page document, the buffer [1] to the ten-page document, the bundled path to
the one-page document. -/
def env_w : Env where
  fitzAvailable := true
  openPath := fun p => if p = pdf_path then some doc_w else none
  openBytes := fun raw =>
    if raw = [37] then some doc_w else if raw = [1] then some doc10 else none
  pdfPathExists := true
  dejavuAvailable := true
  textbb := fun _f => (0, 9, 120, 36)

/-- A concrete environment in which every document source fails to open. -/
def env_bad : Env where
  fitzAvailable := true
  openPath := fun _p => none
  openBytes := fun _raw => none
  pdfPathExists := true
  dejavuAvailable := true
  textbb := fun _f => (0, 9, 120, 36)

/-- A concrete environment in which the rendering backend is unavailable. -/
def env_nofitz : Env where
  fitzAvailable := false
  openPath := fun _p => none
  openBytes := fun _raw => none
  pdfPathExists := true
  dejavuAvailable := false
  textbb := fun _f => (0, 9, 120, 36)

/-- The image the one-page document renders to at the default zoom 2. -/
def img_w : Image := page_w.get_pixmap 2

/-! Helper lemmas about the Python int conversion. -/

theorem py_int_eq_floor (q : ℚ) (h : 0 ≤ q) : py_int q = ⌊q⌋ := by
  simp [py_int, not_lt.2 h]

theorem py_int_mono {q r : ℚ} (h : q ≤ r) : py_int q ≤ py_int r := by
  unfold py_int
  split_ifs with hq hr hr
  · have hfl : ⌊-r⌋ ≤ ⌊-q⌋ := Int.floor_le_floor (by linarith)
    omega
  · have h1 : (0 : Int) ≤ ⌊-q⌋ := Int.floor_nonneg.2 (by linarith)
    have h2 : (0 : Int) ≤ ⌊r⌋ := Int.floor_nonneg.2 (not_lt.1 hr)
    omega
  · exact absurd hr (not_lt.2 ((not_lt.1 hq).trans h))
  · exact Int.floor_le_floor h

/-! Claim theorems. -/

/-- Claim C2 (confirmed): for every integer index and every maxIndex at least
0, ensure_index_bounds returns 0 below the range, maxIndex above it, the index
itself inside it; the result always lies in [0, maxIndex] and the function is
idempotent. -/
theorem ensure_index_bounds_contract (index max_index : Int)
    (hm : 0 ≤ max_index) :
    (index < 0 → ensure_index_bounds index max_index = 0) ∧
    (index > max_index → ensure_index_bounds index max_index = max_index) ∧
    (0 ≤ index → index ≤ max_index →
      ensure_index_bounds index max_index = index) ∧
    0 ≤ ensure_index_bounds index max_index ∧
    ensure_index_bounds index max_index ≤ max_index ∧
    ensure_index_bounds (ensure_index_bounds index max_index) max_index =
      ensure_index_bounds index max_index := by
  unfold ensure_index_bounds
  split_ifs <;> omega

/-- Witness for ensure_index_bounds_contract at index 5, maxIndex 3. -/
theorem ensure_index_bounds_contract_witness :
    ((5 : Int) < 0 → ensure_index_bounds 5 3 = 0) ∧
    ((5 : Int) > 3 → ensure_index_bounds 5 3 = 3) ∧
    ((0 : Int) ≤ 5 → (5 : Int) ≤ 3 → ensure_index_bounds 5 3 = 5) ∧
    0 ≤ ensure_index_bounds 5 3 ∧
    ensure_index_bounds 5 3 ≤ 3 ∧
    ensure_index_bounds (ensure_index_bounds 5 3) 3 =
      ensure_index_bounds 5 3 :=
  ensure_index_bounds_contract 5 3 (by decide)

/-- Claim C1 (counterexample): the Overlay Mapper does not compute the rounded
products the specification states. At the box (1/2, 0, 1, 1) on a 3 by 2 image
the code truncates 3/2 to 1 while the round of 3/2 is 2. -/
theorem overlay_round_counterexample :
    map_bbox 3 2 (1/2) 0 1 1 ≠ map_bbox_spec 3 2 (1/2) 0 1 1 := by
  have h1 : map_bbox 3 2 (1/2) 0 1 1 = (1, 0, 3, 2) := by
    unfold map_bbox
    rw [py_int_eq_floor _ (by norm_num), py_int_eq_floor _ (by norm_num),
      py_int_eq_floor _ (by norm_num), py_int_eq_floor _ (by norm_num)]
    norm_num [Prod.ext_iff]
  have h2 : map_bbox_spec 3 2 (1/2) 0 1 1 = (2, 0, 3, 2) := by
    unfold map_bbox_spec
    norm_num [round_eq, Prod.ext_iff]
  rw [h1, h2]
  decide

/-- Claim C1 (corrected): the Overlay Mapper computes the Python int conversion
of each product, which truncates toward zero - the floor for boxes with
nonnegative coordinates - rather than the round; the two cited examples hold:
the box (1/4, 1/4, 3/4, 3/4) on a 400 by 200 image maps to (100, 50, 300, 150)
and the full-frame box (0, 0, 1, 1) maps to (0, 0, W, H). -/
theorem overlay_mapper_truncates (W H : Nat) (x0 y0 x1 y1 : ℚ)
    (h0 : 0 ≤ x0) (h1 : 0 ≤ y0) (h2 : 0 ≤ x1) (h3 : 0 ≤ y1) :
    map_bbox W H x0 y0 x1 y1 =
      (⌊x0 * (W : ℚ)⌋, ⌊y0 * (H : ℚ)⌋, ⌊x1 * (W : ℚ)⌋, ⌊y1 * (H : ℚ)⌋) ∧
    map_bbox W H 0 0 1 1 = (0, 0, (W : Int), (H : Int)) ∧
    map_bbox 400 200 (1/4) (1/4) (3/4) (3/4) = (100, 50, 300, 150) := by
  refine ⟨?_, ?_, ?_⟩
  · simp [map_bbox,
      py_int_eq_floor _ (mul_nonneg h0 (Nat.cast_nonneg W)),
      py_int_eq_floor _ (mul_nonneg h1 (Nat.cast_nonneg H)),
      py_int_eq_floor _ (mul_nonneg h2 (Nat.cast_nonneg W)),
      py_int_eq_floor _ (mul_nonneg h3 (Nat.cast_nonneg H))]
  · unfold map_bbox
    rw [py_int_eq_floor _ (by norm_num), py_int_eq_floor _ (by norm_num),
      py_int_eq_floor _ (by positivity), py_int_eq_floor _ (by positivity)]
    norm_num [Prod.ext_iff, Int.floor_natCast]
  · unfold map_bbox
    rw [py_int_eq_floor _ (by norm_num), py_int_eq_floor _ (by norm_num),
      py_int_eq_floor _ (by norm_num), py_int_eq_floor _ (by norm_num)]
    norm_num [Prod.ext_iff]

/-- Witness for overlay_mapper_truncates at the box (1/2, 0, 1, 1) on a 3 by 2
image. -/
theorem overlay_mapper_truncates_witness :
    map_bbox 3 2 (1/2) 0 1 1 =
      (⌊(1/2 : ℚ) * (3 : ℚ)⌋, ⌊(0 : ℚ) * (2 : ℚ)⌋,
       ⌊(1 : ℚ) * (3 : ℚ)⌋, ⌊(1 : ℚ) * (2 : ℚ)⌋) ∧
    map_bbox 3 2 0 0 1 1 = (0, 0, (3 : Int), (2 : Int)) ∧
    map_bbox 400 200 (1/4) (1/4) (3/4) (3/4) = (100, 50, 300, 150) :=
  overlay_mapper_truncates 3 2 (1/2) 0 1 1 (by norm_num) (by norm_num)
    (by norm_num) (by norm_num)

/-- Claim C9 (confirmed): a missing field of a record gets its documented
default - the resolved page index is page_no when present, else page when
present, else 0, with page_no preferred when both are present; a missing text
field defaults to the empty string; and an absent bbox leaves the rendered
image without an overlay. -/
theorem record_field_defaults (t : Option String) (pn pg : Option Int)
    (bb : Option BboxField) (n m : Int) (img : Image) :
    resolve_page_no (.dict ⟨t, some n, pg, bb⟩) = n ∧
    resolve_page_no (.dict ⟨t, none, some m, bb⟩) = m ∧
    resolve_page_no (.dict ⟨t, none, none, bb⟩) = 0 ∧
    markdown_text (.dict ⟨none, pn, pg, bb⟩) = "" ∧
    apply_overlay (.dict ⟨t, pn, pg, none⟩) img = img :=
  ⟨rfl, rfl, rfl, rfl, rfl⟩

/-- Claim C3 (confirmed): the Page Rasterizer clamps the requested page index
into [0, pageCount-1] and returns a rendered page, never an error, for an
out-of-range index: on every successfully opened nonempty document, index -5
renders page 0, and index 10000 on a ten-page document renders page 9; both
the byte-buffer and the path variants behave so. -/
theorem rasterizer_clamps_page_index (env : Env) (raw : List Nat)
    (path : String) (doc : Doc) (zoom : ℚ) (p0 : Page)
    (hf : env.fitzAvailable = true)
    (hb : env.openBytes raw = some doc)
    (h0 : doc.pages[0]? = some p0) :
    render_pdf_page_from_bytes env raw (-5) zoom = .ok (p0.get_pixmap zoom) ∧
    (∀ p9, doc.pages.length = 10 → doc.pages[9]? = some p9 →
      render_pdf_page_from_bytes env raw 10000 zoom =
        .ok (p9.get_pixmap zoom)) ∧
    (env.openPath path = some doc →
      render_pdf_page_from_path env path (-5) zoom = .ok (p0.get_pixmap zoom) ∧
      ∀ p9, doc.pages.length = 10 → doc.pages[9]? = some p9 →
        render_pdf_page_from_path env path 10000 zoom =
          .ok (p9.get_pixmap zoom)) := by
  have hlen : 0 < doc.pages.length := by
    by_contra hc
    rw [List.length_eq_zero.1 (Nat.le_zero.1 (not_lt.1 hc))] at h0
    simp at h0
  have hcl0 : max 0 (min (-5 : Int) (doc.page_count - 1)) = 0 := by
    unfold Doc.page_count
    omega
  have hcl9 : doc.pages.length = 10 →
      max 0 (min (10000 : Int) (doc.page_count - 1)) = 9 := by
    intro h10
    unfold Doc.page_count
    omega
  refine ⟨?_, fun p9 h10 h9 => ?_, fun hp => ⟨?_, fun p9 h10 h9 => ?_⟩⟩
  · simp [render_pdf_page_from_bytes, hf, hb, hcl0, Doc.load_page, h0]
  · simp [render_pdf_page_from_bytes, hf, hb, hcl9 h10, Doc.load_page, h9]
  · simp [render_pdf_page_from_path, hf, hp, hcl0, Doc.load_page, h0]
  · simp [render_pdf_page_from_path, hf, hp, hcl9 h10, Doc.load_page, h9]

/-- Witness for rasterizer_clamps_page_index on the concrete ten-page document
decoded from the byte buffer [1]. -/
theorem rasterizer_clamps_page_index_witness :
    render_pdf_page_from_bytes env_w [1] (-5) 2 = .ok (page_w.get_pixmap 2) ∧
    (∀ p9, doc10.pages.length = 10 → doc10.pages[9]? = some p9 →
      render_pdf_page_from_bytes env_w [1] 10000 2 =
        .ok (p9.get_pixmap 2)) ∧
    (env_w.openPath pdf_path = some doc10 →
      render_pdf_page_from_path env_w pdf_path (-5) 2 =
        .ok (page_w.get_pixmap 2) ∧
      ∀ p9, doc10.pages.length = 10 → doc10.pages[9]? = some p9 →
        render_pdf_page_from_path env_w pdf_path 10000 2 =
          .ok (p9.get_pixmap 2)) :=
  rasterizer_clamps_page_index env_w [1] pdf_path doc10 2 page_w rfl
    (by decide) (by decide)

/-- Claim C7 (counterexample): a render call with zoom 0 on a valid one-page
document does not produce the invalidZoom error the claim requires - the code
contains no zoom validation and the render proceeds. -/
theorem invalid_zoom_counterexample :
    render_pdf_page_from_bytes env_w [37] 0 0 ≠ .error .invalidZoom := by
  have h : render_pdf_page_from_bytes env_w [37] 0 0 =
      .ok (page_w.get_pixmap 0) := rfl
  rw [h]
  exact fun hc => Except.noConfusion hc

/-- Claim C7 (corrected): the Page Rasterizer performs no zoom validation and
never raises an InvalidZoom condition: for every zoom, zero and negative values
included, a render on a successfully opened nonempty document succeeds, the
zoom passing to the rendering backend unchecked; the default zoom is 2. -/
theorem rasterizer_no_zoom_validation (env : Env) (raw : List Nat) (doc : Doc)
    (page_index : Int) (zoom : ℚ)
    (hf : env.fitzAvailable = true) (hb : env.openBytes raw = some doc)
    (hne : doc.pages ≠ []) :
    (∃ img, render_pdf_page_from_bytes env raw page_index zoom = .ok img) ∧
    render_pdf_page_from_bytes env raw page_index =
      render_pdf_page_from_bytes env raw page_index 2 := by
  refine ⟨?_, rfl⟩
  have hlen : 0 < doc.pages.length := List.length_pos.2 hne
  have hrange : 0 ≤ max 0 (min page_index (doc.page_count - 1)) ∧
      (max 0 (min page_index (doc.page_count - 1))).toNat <
        doc.pages.length := by
    unfold Doc.page_count
    omega
  refine ⟨(doc.pages.get ⟨(max 0 (min page_index
    (doc.page_count - 1))).toNat, hrange.2⟩).get_pixmap zoom, ?_⟩
  simp [render_pdf_page_from_bytes, hf, hb, Doc.load_page, hrange.1,
    List.getElem?_eq_getElem hrange.2]

/-- Witness for rasterizer_no_zoom_validation at zoom 0 and page index 7 on the
concrete one-page document. -/
theorem rasterizer_no_zoom_validation_witness :
    (∃ img, render_pdf_page_from_bytes env_w [37] 7 0 = .ok img) ∧
    render_pdf_page_from_bytes env_w [37] 7 =
      render_pdf_page_from_bytes env_w [37] 7 2 :=
  rasterizer_no_zoom_validation env_w [37] doc_w 7 0 rfl (by decide)
    (by decide)

/-- Claim C4 (confirmed): for every valid call, two successive Render Cache
calls with identical arguments return the identical image, and the second call
does not invoke the Page Rasterizer and leaves the store unchanged. -/
theorem cache_hit_no_reinvoke (env : Env) (cache : List (CacheKey × Image))
    (src : Src) (page_index : Int) (zoom : ℚ) (img : Image)
    (c1 : List (CacheKey × Image)) (b : Bool)
    (h : getOrRender env cache src page_index zoom = ⟨.ok img, c1, b⟩) :
    getOrRender env c1 src page_index zoom = ⟨.ok img, c1, false⟩ := by
  unfold getOrRender at h ⊢
  rcases hl : cacheLookup (src, page_index, zoom) cache with _ | i
  · rw [hl] at h
    rcases hr : renderSrc env src page_index zoom with e | i
    · rw [hr] at h
      injection h with h1 h2 h3
      exact Except.noConfusion h1
    · rw [hr] at h
      injection h with h1 h2 h3
      injection h1 with h4
      subst h4
      rw [← h2]
      simp [cacheLookup]
  · rw [hl] at h
    injection h with h1 h2 h3
    injection h1 with h4
    subst h4
    rw [← h2, hl]

/-- Witness for cache_hit_no_reinvoke: the second call with the same arguments
after a successful miss on the empty store returns the stored image without
invoking the rasterizer. -/
theorem cache_hit_no_reinvoke_witness :
    getOrRender env_w [((Src.bytes [37], 0, 2), img_w)] (Src.bytes [37]) 0 2 =
      ⟨.ok img_w, [((Src.bytes [37], 0, 2), img_w)], false⟩ :=
  cache_hit_no_reinvoke env_w [] (Src.bytes [37]) 0 2 img_w
    [((Src.bytes [37], 0, 2), img_w)] true rfl

/-- Claim C5 (confirmed): a failing render propagates its error to the caller
and stores nothing - the same failing request issued twice invokes the
rasterizer both times, the store unchanged by both calls. -/
theorem cache_failure_not_stored (env : Env) (cache : List (CacheKey × Image))
    (src : Src) (page_index : Int) (zoom : ℚ) (e : RenderError)
    (hmiss : cacheLookup (src, page_index, zoom) cache = none)
    (herr : renderSrc env src page_index zoom = .error e) :
    getOrRender env cache src page_index zoom = ⟨.error e, cache, true⟩ ∧
    getOrRender env (getOrRender env cache src page_index zoom).cache src
      page_index zoom = ⟨.error e, cache, true⟩ := by
  have h1 : getOrRender env cache src page_index zoom =
      ⟨.error e, cache, true⟩ := by
    unfold getOrRender
    rw [hmiss, herr]
  refine ⟨h1, ?_⟩
  rw [h1]
  exact h1

/-- Witness for cache_failure_not_stored: rendering the invalid byte buffer [0]
in the environment whose decoder rejects everything, twice, from the empty
store. -/
theorem cache_failure_not_stored_witness :
    getOrRender env_bad [] (Src.bytes [0]) 0 2 =
      ⟨.error .documentOpenError, [], true⟩ ∧
    getOrRender env_bad (getOrRender env_bad [] (Src.bytes [0]) 0 2).cache
      (Src.bytes [0]) 0 2 = ⟨.error .documentOpenError, [], true⟩ :=
  cache_failure_not_stored env_bad [] (Src.bytes [0]) 0 2 .documentOpenError
    rfl rfl

/-- The overlay step never changes the dimensions or the mode of the image it
receives, whichever branch it takes. -/
theorem apply_overlay_dims (item : Item) (img : Image) :
    (apply_overlay item img).width = img.width ∧
    (apply_overlay item img).height = img.height ∧
    (apply_overlay item img).mode = img.mode := by
  unfold apply_overlay
  rcases item with r | s
  · rcases r with ⟨t, pn, pg, bb⟩
    rcases bb with _ | bb
    · exact ⟨rfl, rfl, rfl⟩
    · rcases bb with xs | _
      · rcases xs with _ | ⟨a, _ | ⟨b, _ | ⟨c, _ | ⟨d, _ | ⟨e, tl⟩⟩⟩⟩⟩ <;>
          exact ⟨rfl, rfl, rfl⟩
      · exact ⟨rfl, rfl, rfl⟩
  · exact ⟨rfl, rfl, rfl⟩

/-- Claim C6 (confirmed): the Index Clamp and the Overlay Mapper are total -
the clamp always returns one of 0, maxIndex, index, and the overlay step
always yields an image of the same dimensions - and a box violating the
x0 at most x1, y0 at most y1 convention maps to a degenerate pixel rectangle
(the right edge at or left of the left edge, the bottom at or above the top)
that is drawn without failing. -/
theorem clamp_and_overlay_total (i m : Int) (item : Item) (img : Image)
    (w h : Nat) (x0 y0 x1 y1 : ℚ) (hx : x1 ≤ x0) (hy : y1 ≤ y0) :
    (ensure_index_bounds i m = 0 ∨ ensure_index_bounds i m = m ∨
      ensure_index_bounds i m = i) ∧
    (apply_overlay item img).width = img.width ∧
    (apply_overlay item img).height = img.height ∧
    (map_bbox w h x0 y0 x1 y1).2.2.1 ≤ (map_bbox w h x0 y0 x1 y1).1 ∧
    (map_bbox w h x0 y0 x1 y1).2.2.2 ≤ (map_bbox w h x0 y0 x1 y1).2.1 := by
  refine ⟨?_, (apply_overlay_dims item img).1,
    (apply_overlay_dims item img).2.1, ?_, ?_⟩
  · unfold ensure_index_bounds
    split_ifs <;> simp
  · exact py_int_mono (mul_le_mul_of_nonneg_right hx (Nat.cast_nonneg w))
  · exact py_int_mono (mul_le_mul_of_nonneg_right hy (Nat.cast_nonneg h))

/-- Witness for clamp_and_overlay_total at index -7 of a 4-record collection
and the reversed box (1, 1, 0, 0) on a 3 by 2 image. -/
theorem clamp_and_overlay_total_witness :
    (ensure_index_bounds (-7) 3 = 0 ∨ ensure_index_bounds (-7) 3 = 3 ∨
      ensure_index_bounds (-7) 3 = -7) ∧
    (apply_overlay (.dict ⟨none, none, none, none⟩)
      (Image.new 2 2 (0, 0, 0))).width = (Image.new 2 2 (0, 0, 0)).width ∧
    (apply_overlay (.dict ⟨none, none, none, none⟩)
      (Image.new 2 2 (0, 0, 0))).height = (Image.new 2 2 (0, 0, 0)).height ∧
    (map_bbox 3 2 1 1 0 0).2.2.1 ≤ (map_bbox 3 2 1 1 0 0).1 ∧
    (map_bbox 3 2 1 1 0 0).2.2.2 ≤ (map_bbox 3 2 1 1 0 0).2.1 :=
  clamp_and_overlay_total (-7) 3 (.dict ⟨none, none, none, none⟩)
    (Image.new 2 2 (0, 0, 0)) 3 2 1 1 0 0 (by norm_num) (by norm_num)

/-- Claim C8 (confirmed): with the rendering backend unavailable every render
request displays the fallback placeholder of the documented default size
900 by 600 without raising, and the placeholder itself has no error
conditions, returning an RGB image of exactly the requested dimensions. -/
theorem fallback_placeholder_on_unavailable (env : Env)
    (pdf_upload : Option (List Nat)) (item : Item) (w h : Nat)
    (hf : env.fitzAvailable = false) :
    right_col_image env pdf_upload item = build_placeholder_image env ∧
    (build_placeholder_image env w h).mode = "RGB" ∧
    (build_placeholder_image env w h).width = w ∧
    (build_placeholder_image env w h).height = h ∧
    (build_placeholder_image env).width = 900 ∧
    (build_placeholder_image env).height = 600 := by
  refine ⟨?_, rfl, rfl, rfl, rfl, rfl⟩
  simp [right_col_image, hf]

/-- Witness for fallback_placeholder_on_unavailable in the concrete
environment without the backend. -/
theorem fallback_placeholder_on_unavailable_witness :
    right_col_image env_nofitz (some [37]) (.dict ⟨none, none, none, none⟩) =
      build_placeholder_image env_nofitz ∧
    (build_placeholder_image env_nofitz 900 600).mode = "RGB" ∧
    (build_placeholder_image env_nofitz 900 600).width = 900 ∧
    (build_placeholder_image env_nofitz 900 600).height = 600 ∧
    (build_placeholder_image env_nofitz).width = 900 ∧
    (build_placeholder_image env_nofitz).height = 600 :=
  fallback_placeholder_on_unavailable env_nofitz (some [37])
    (.dict ⟨none, none, none, none⟩) 900 600 rfl

/-- Claim C10 (confirmed): when the bbox field is present but is not a
4-element list or tuple - a shorter or longer list, or a non-sequence value -
no overlay is drawn and the rendered image is displayed unchanged, without
raising. -/
theorem malformed_bbox_no_overlay (env : Env) (raw : List Nat)
    (t : Option String) (pn pg : Option Int) (xs : List ℚ) (img : Image)
    (hok : render_pdf_page_from_bytes env raw
      (resolve_page_no (.dict ⟨t, pn, pg, some (.list xs)⟩)) = .ok img)
    (hlen : xs.length ≠ 4) :
    right_col_image env (some raw) (.dict ⟨t, pn, pg, some (.list xs)⟩) =
      img ∧
    right_col_image env (some raw) (.dict ⟨t, pn, pg, some .scalar⟩) =
      img := by
  have hf : env.fitzAvailable = true := by
    rcases hfa : env.fitzAvailable with _ | _
    · rw [render_pdf_page_from_bytes, hfa] at hok
      simp at hok
    · rfl
  have hov : apply_overlay (.dict ⟨t, pn, pg, some (.list xs)⟩) img = img := by
    unfold apply_overlay
    rcases xs with _ | ⟨a, _ | ⟨b, _ | ⟨c, _ | ⟨d, _ | ⟨e, tl⟩⟩⟩⟩⟩ <;>
      first
        | rfl
        | exact absurd rfl hlen
  have hpage : resolve_page_no (Item.dict ⟨t, pn, pg, some .scalar⟩) =
      resolve_page_no (Item.dict ⟨t, pn, pg, some (.list xs)⟩) := rfl
  constructor
  · simp [right_col_image, hf, hok, hov]
  · simp [right_col_image, hf, hpage, hok, apply_overlay]

/-- Witness for malformed_bbox_no_overlay with the 3-element bbox [1, 2, 3] on
the concrete one-page document. -/
theorem malformed_bbox_no_overlay_witness :
    right_col_image env_w (some [37])
      (.dict ⟨none, none, none, some (.list [1, 2, 3])⟩) = img_w ∧
    right_col_image env_w (some [37])
      (.dict ⟨none, none, none, some .scalar⟩) = img_w :=
  malformed_bbox_no_overlay env_w [37] none none none [1, 2, 3] img_w rfl
    (by decide)
